import Mathlib

/-!
Shallow embedding of `src/index.js` of net-websockets.js: a `net.Socket`
drop-in backed by a WebSocket transport.

The `Socket` class state is modelled as a Lean structure; each method or
transport event listener becomes a function from the state to a new state
together with a list of observable effects (events emitted, callbacks
invoked, transport calls, scheduled nextTick tasks).  JavaScript numbers
that can become NaN (`bytesWritten`) are modelled by `JSNum`; the three
shapes a write payload can take (string, Buffer/Uint8Array, ArrayBuffer)
by `JSData`, remembering that in JavaScript an ArrayBuffer has no `.length`
property (reading it yields `undefined`).
-/

/-- A JavaScript number that is either a finite integer or NaN. -/
inductive JSNum where
  | fin (n : Int)
  | nan
  deriving DecidableEq, Repr

/-- JavaScript `+=` of a number and a value that is either a length
(a number) or `undefined`: adding `undefined`, or adding to NaN, gives NaN. -/
def jsAddLen : JSNum → Option Nat → JSNum
  | JSNum.fin n, some l => JSNum.fin (n + l)
  | _, _ => JSNum.nan

/-- A value a write payload can hold.  `str` is a JS string, `buf` a Node
Buffer / Uint8Array (which has `.length`), `abuf` an ArrayBuffer (which has
`.byteLength` but NO `.length`; reading `.length` yields `undefined`). -/
inductive JSData where
  | str (s : String)
  | buf (bytes : List Nat)
  | abuf (bytes : List Nat)
  deriving DecidableEq, Repr

/-- Number of UTF-16 code units of a string (JS `String.prototype.length`). -/
def utf16Len (s : String) : Nat :=
  (s.data.map (fun c => if c.toNat < 0x10000 then 1 else 2)).sum

/-- JavaScript `.length` of a payload: `undefined` (`none`) on an ArrayBuffer. -/
def JSData.jsLength : JSData → Option Nat
  | JSData.str s => some (utf16Len s)
  | JSData.buf b => some b.length
  | JSData.abuf _ => none

/-- UTF-8 encoding of one character (what `TextEncoder.prototype.encode`
does per code point; a TextEncoder always encodes UTF-8). -/
def charUtf8 (c : Char) : List Nat :=
  let n := c.toNat
  if n < 0x80 then [n]
  else if n < 0x800 then
    [0xC0 ||| (n >>> 6), 0x80 ||| (n &&& 0x3F)]
  else if n < 0x10000 then
    [0xE0 ||| (n >>> 12), 0x80 ||| ((n >>> 6) &&& 0x3F), 0x80 ||| (n &&& 0x3F)]
  else
    [0xF0 ||| (n >>> 18), 0x80 ||| ((n >>> 12) &&& 0x3F),
     0x80 ||| ((n >>> 6) &&& 0x3F), 0x80 ||| (n &&& 0x3F)]

/-- UTF-8 encoding of a string: the bytes `TextEncoder.encode` produces. -/
def utf8Bytes (s : String) : List Nat := s.data.flatMap charUtf8

/-- A deferred write recorded by the `once('connect', ...)` closure in
`Socket._write` (src/index.js:221-224): payload, encoding, callback. -/
structure PendingWrite where
  data : JSData
  enc : String
  hasCb : Bool
  deriving DecidableEq, Repr

/-- The duration argument of `setTimeout`, as a JS number: a finite integer,
NaN, or an infinity. -/
inductive Duration where
  | fin (n : Int)
  | nan
  | inf
  | negInf
  deriving DecidableEq, Repr

/-- `msecs > 0 && isFinite(msecs)` (src/index.js:72). -/
def Duration.isPosFinite : Duration → Bool
  | Duration.fin n => decide (0 < n)
  | _ => false

/-- `msecs === 0` (src/index.js:78). -/
def Duration.isZero : Duration → Bool
  | Duration.fin n => decide (n = 0)
  | _ => false

/-- The mutable state of a `Socket` (constructor, src/index.js:30-56).
`ws` is whether `this._ws` is non-null, `timerArmed` whether `this._timer`
is non-null, `timeout` the value of `this._timeout` (`none` = null),
`encoding` the value of `this._encoding` (`none` = null).
`connectListeners` counts callbacks registered with `on('connect', cb)`;
`timeoutListeners` holds ids of callbacks registered with
`once('timeout', cb)`; `pendingWrites` holds the deferred-write
`once('connect', ...)` replays, in registration order. -/
structure Socket where
  remoteAddress : Option String
  remoteFamily : Option String
  remotePort : Option Int
  localAddress : Option String
  localPort : Option Int
  bytesRead : Nat
  bytesWritten : JSNum
  connecting : Bool
  readable : Bool
  writable : Bool
  destroyed : Bool
  allowHalfOpen : Bool
  timeout : Option Int
  timerArmed : Bool
  ws : Bool
  encoding : Option String
  connectListeners : Nat
  timeoutListeners : List Nat
  pendingWrites : List PendingWrite
  deriving DecidableEq, Repr

/-- A freshly constructed `Socket` (src/index.js:30-56). -/
def Socket.init (allowHalfOpen : Bool) : Socket where
  remoteAddress := none
  remoteFamily := none
  remotePort := none
  localAddress := none
  localPort := none
  bytesRead := 0
  bytesWritten := JSNum.fin 0
  connecting := false
  readable := false
  writable := false
  destroyed := false
  allowHalfOpen := allowHalfOpen
  timeout := none
  timerArmed := false
  ws := false
  encoding := none
  connectListeners := 0
  timeoutListeners := []
  pendingWrites := []

/-- A task scheduled with `process.nextTick`. -/
inductive Tick where
  | writeDone (d : JSData) (hasCb : Bool)
  | connectTick
  deriving DecidableEq, Repr

/-- Observable effects of an operation, in order of occurrence. -/
inductive Eff where
  | emitConnect
  | emitTimeout
  | emitError (msg : String)
  | connCb
  | writeCb
  | destroyCb (err : Option String)
  | wsSend (d : JSData)
  | wsClose
  | newWS
  | newEncoder (enc : String)
  | pushData (bytes : List Nat)
  | pushEOF
  | superEnd
  | schedule (t : Tick)
  deriving DecidableEq, Repr

/-- Whether an effect is an `error` event emission. -/
def isErrorEff : Eff → Bool
  | Eff.emitError _ => true
  | _ => false

/-- Number of `error` events in an effect list. -/
def errorCount (effs : List Eff) : Nat := effs.countP isErrorEff

/-- `Socket.prototype._refreshTimer` (src/index.js:91-98): clear any armed
timer, then arm a new one iff `this._timeout` is non-null. -/
def Socket.refreshTimer (s : Socket) : Socket :=
  { s with timerArmed := s.timeout.isSome }

/-- `Socket.prototype.setTimeout` (src/index.js:71-89).  `cb` is `some id`
when a callback is supplied. -/
def Socket.setTimeout (s : Socket) (msecs : Duration) (cb : Option Nat) : Socket :=
  match msecs with
  | Duration.fin n =>
    if 0 < n then
      let s1 := { s with timeout := some n }
      let s2 := s1.refreshTimer
      match cb with
      | some id => { s2 with timeoutListeners := s2.timeoutListeners ++ [id] }
      | none => s2
    else if n = 0 then
      let s1 := { s with timeout := none, timerArmed := false }
      match cb with
      | some id => { s1 with timeoutListeners := s1.timeoutListeners.erase id }
      | none => s1
    else s
  | _ => s

/-- The armed idle timer expiring (the closure at src/index.js:96): the
single-shot timer emits `timeout` and is then spent.  When no timer is
armed nothing can fire. -/
def timerFire (s : Socket) : Socket × List Eff :=
  if s.timerArmed then ({ s with timerArmed := false }, [Eff.emitTimeout]) else (s, [])

/-- `n` opportunities for the idle timer to fire, with no intervening
activity on the socket. -/
def iterFire : Socket → Nat → Socket × List Eff
  | s, 0 => (s, [])
  | s, n + 1 =>
    let r1 := timerFire s
    let r2 := iterFire r1.1 n
    (r2.1, r1.2 ++ r2.2)

/-- `Socket.prototype.listen` (src/index.js:109-111): always throws. -/
def Socket.listen (s : Socket) : Socket × Except String Unit :=
  (s, Except.error "Cannot listen in a browser")

/-- The options object accepted by `connect` (src/index.js:113-130). -/
structure ConnectOptions where
  wsurl : Option String := none
  path : Option String := none
  protocol : Option String := none
  host : Option String := none
  port : Option Int := none
  wspath : Option String := none
  family : Option Int := none
  wsprotocols : List String := []
  deriving DecidableEq, Repr

/-- JavaScript truthiness of an optional string (`if (options.path)`):
truthy iff present and non-empty. -/
def jsTruthy : Option String → Bool
  | some s => s ≠ ""
  | none => false

/-- `Socket.prototype.connect` (src/index.js:118-196), for an object
`options` argument.  The `console.warn` loop for unsupported options
(lines 126-130) only logs and is not modelled as an effect.  On the main
path the source assigns `this.remoteAddress = url.hostname` and
`this.remotePort = url.port` (lines 158-159) where `url` is the required
`url` MODULE, whose `hostname`/`port` are `undefined`: both fields become
`none`.  Throwing is modelled as `Except.error` with the state returned
unchanged, since the throw happens before any mutation. -/
def Socket.connect (s : Socket) (opts : ConnectOptions) (hasCb : Bool) :
    Socket × Except String (List Eff) :=
  if jsTruthy opts.path then
    (s, Except.error "options.path not supported in the browser")
  else if s.ws then
    (s, Except.ok (if hasCb then [Eff.schedule Tick.connectTick] else []))
  else
    let s1 := if hasCb then { s with connectListeners := s.connectListeners + 1 } else s
    let s2 := s1.refreshTimer
    let s3 := { s2 with
      connecting := true
      writable := true
      remoteAddress := none
      remotePort := none
      remoteFamily := some (if opts.family = some 6 then "IPv6" else "IPv4")
      ws := true }
    (s3, Except.ok [Eff.newWS])

/-- `Socket.prototype._write` (src/index.js:216-242).  While connecting,
the write is deferred via `once('connect', ...)`.  Otherwise a string
payload is encoded: a new TextEncoder is constructed only when `encoding`
differs from `this._encoding`, and `data` is reassigned to
`this._encoder.encode(data).buffer` — an ArrayBuffer.  The bytes are handed
to `this._ws.send` and a `process.nextTick` task is scheduled that will do
`this.bytesWritten += data.length` and call the callback. -/
def Socket._write (s : Socket) (data : JSData) (enc : String) (hasCb : Bool) :
    Socket × List Eff :=
  let s0 := s.refreshTimer
  if s0.connecting then
    ({ s0 with pendingWrites := s0.pendingWrites ++ [⟨data, enc, hasCb⟩] }, [])
  else
    match data with
    | JSData.str text =>
      let r1 : Socket × List Eff :=
        if s0.encoding ≠ some enc then
          ({ s0 with encoding := some enc }, [Eff.newEncoder enc])
        else (s0, [])
      let d := JSData.abuf (utf8Bytes text)
      (r1.1, r1.2 ++ [Eff.wsSend d, Eff.schedule (Tick.writeDone d hasCb)])
    | d => (s0, [Eff.wsSend d, Eff.schedule (Tick.writeDone d hasCb)])

/-- Running a scheduled `process.nextTick` task.  For a completed write
(src/index.js:238-241) it performs `this.bytesWritten += data.length` —
with JS semantics, so an ArrayBuffer payload adds `undefined` — and calls
the callback.  For the already-connected `connect` path (line 135) it just
calls the supplied callback. -/
def Socket.runTick (s : Socket) : Tick → Socket × List Eff
  | Tick.writeDone d hasCb =>
    ({ s with bytesWritten := jsAddLen s.bytesWritten d.jsLength },
     if hasCb then [Eff.writeCb] else [])
  | Tick.connectTick => (s, [Eff.connCb])

/-- `Socket.prototype._destroy` (src/index.js:244-264). -/
def Socket._destroy (s : Socket) (err : Option String) (hasCb : Bool) :
    Socket × List Eff :=
  if s.destroyed then (s, [])
  else
    let s1 := { s with
      destroyed := true
      connecting := false
      readable := false
      writable := false }
    let r2 : Socket × List Eff :=
      if s1.ws then ({ s1 with ws := false }, [Eff.wsClose]) else (s1, [])
    let s3 := if r2.1.timerArmed then ({ r2.1 with timeout := none }).refreshTimer else r2.1
    (s3, r2.2 ++ (if hasCb then [Eff.destroyCb err] else []))

/-- `destroy()` with no arguments, as invoked by the close listener and by
`end` — runs `_destroy` with no error and no callback. -/
def Socket.destroy (s : Socket) : Socket × List Eff :=
  s._destroy none false

/-- `Socket.prototype.end` (src/index.js:198-207).  `super.end(...)` (the
Duplex machinery) is recorded as the `superEnd` effect; then the method
clears `writable` and destroys unless half-open is allowed and the read
side is still open. -/
def Socket.«end» (s : Socket) : Socket × List Eff :=
  let s1 := { s with writable := false }
  if !s1.destroyed && (!s1.allowHalfOpen || !s1.readable) then
    let r := s1.destroy
    (r.1, Eff.superEnd :: r.2)
  else
    (s1, [Eff.superEnd])

/-- Replaying the deferred writes registered with `once('connect', ...)`,
in registration order; each replay re-invokes `_write`. -/
def Socket.replayWrites (s : Socket) : List PendingWrite → Socket × List Eff
  | [] => (s, [])
  | w :: rest =>
    let r1 := s._write w.data w.enc w.hasCb
    let r2 := r1.1.replayWrites rest
    (r2.1, r1.2 ++ r2.2)

/-- The transport `open` listener (src/index.js:165-172): refresh the
timer, clear `connecting`, set `readable`, then `emit('connect')` — which
synchronously invokes the `on('connect')` callbacks and the deferred-write
`once` listeners, in registration order (wiring callbacks precede deferred
writes, since `connect()` registers before any write is issued). -/
def Socket.onOpen (s : Socket) : Socket × List Eff :=
  let s1 := s.refreshTimer
  let s2 := { s1 with connecting := false, readable := true }
  let pend := s2.pendingWrites
  let s3 := { s2 with pendingWrites := [] }
  let cbEffs := List.replicate s3.connectListeners Eff.connCb
  let r := s3.replayWrites pend
  (r.1, Eff.emitConnect :: (cbEffs ++ r.2))

/-- The transport `message` listener (src/index.js:173-178). -/
def Socket.onMessage (s : Socket) (bytes : List Nat) : Socket × List Eff :=
  let s1 := s.refreshTimer
  ({ s1 with bytesRead := s1.bytesRead + bytes.length }, [Eff.pushData bytes])

/-- The transport `error` listener (src/index.js:179-182): only refreshes
the idle timer; real error information comes with the close event. -/
def Socket.onError (s : Socket) : Socket × List Eff :=
  (s.refreshTimer, [])

/-- The transport `close` listener (src/index.js:183-193).  `wasClean` is
`none` when the event's `wasClean` field is `undefined`. -/
def Socket.onClose (s : Socket) (code : Int) (wasClean : Option Bool) (reason : String) :
    Socket × List Eff :=
  let s1 := s.refreshTimer
  let errEffs :=
    if 1000 < code ∧ code < 3000 ∧ (wasClean = none ∨ wasClean = some false) then
      [Eff.emitError ("[WebSocket error " ++ toString code ++ "] " ++ reason)]
    else []
  if !s1.destroyed then
    let r := s1.destroy
    (r.1, errEffs ++ (Eff.pushEOF :: r.2))
  else
    (s1, errEffs)

/-- The `readyState` accessor (src/index.js:268-282). -/
def Socket.readyState (s : Socket) : String :=
  if s.connecting then "opening"
  else if s.readable && s.writable then "open"
  else if s.readable && !s.writable then "readOnly"
  else if !s.readable && s.writable then "writeOnly"
  else "closed"

/-! Concrete states and scenario intermediates used by the claim theorems. -/

/-- The options of the P6 scenario: `ws://host:8080/`. -/
def p6Opts : ConnectOptions := { host := some "host", port := some 8080 }

/-- P6 scenario after `connect(p6Opts)` (no connect callback). -/
def p6AfterConnect : Socket := ((Socket.init false).connect p6Opts false).1

/-- P6 scenario: `write("abc")` (encoding `utf8`, with a completion
callback) issued while still connecting. -/
def p6WriteRes : Socket × List Eff :=
  p6AfterConnect._write (JSData.str "abc") "utf8" true

/-- P6 scenario: the transport's `open` notification arrives. -/
def p6OpenRes : Socket × List Eff := p6WriteRes.1.onOpen

/-- P6 scenario: the `process.nextTick` task scheduled by the replayed
write runs. -/
def p6TickRes : Socket × List Eff :=
  p6OpenRes.1.runTick (Tick.writeDone (JSData.abuf (utf8Bytes "abc")) true)

/-- A socket whose three lifecycle flags are all set. -/
def c2Sock : Socket :=
  { Socket.init false with connecting := true, readable := true, writable := true }

/-- A socket that already has a transport handle. -/
def c8Sock : Socket := { Socket.init false with ws := true }

/-! Helper lemmas. -/

/-- With no armed timer and no intervening activity, no number of firing
opportunities produces a `timeout` event. -/
theorem iterFire_of_disarmed (s : Socket) (h : s.timerArmed = false) :
    ∀ n, iterFire s n = (s, []) := by
  intro n
  induction n with
  | zero => rfl
  | succ n ih => simp [iterFire, timerFire, h, ih]

/-! Claim theorems. -/

/-- C2 counterexample: the claim demands `readyState = "open"` whenever
`readable = true` and `writable = true`, but on the flag combination
(connecting, readable, writable) = (true, true, true) the accessor checks
`connecting` first and returns `"opening"`, not `"open"`. -/
theorem C2_counterexample :
    c2Sock.readable = true ∧ c2Sock.writable = true ∧ c2Sock.readyState ≠ "open" := by
  decide

/-- C2 (amended): `readyState` is a pure function of (connecting, readable,
writable); `connecting = true` gives `"opening"` regardless of the other
flags, and when `connecting = false`: both flags give `"open"`, neither
gives `"closed"`, readable only gives `"readOnly"`, writable only gives
`"writeOnly"`. -/
theorem C2_readyState_cases (s : Socket) :
    (s.connecting = true → s.readyState = "opening") ∧
    (s.connecting = false →
      ((s.readable = true ∧ s.writable = true → s.readyState = "open") ∧
       (s.readable = false ∧ s.writable = false → s.readyState = "closed") ∧
       (s.readable = true ∧ s.writable = false → s.readyState = "readOnly") ∧
       (s.readable = false ∧ s.writable = true → s.readyState = "writeOnly"))) := by
  cases hc : s.connecting <;> cases hr : s.readable <;> cases hw : s.writable <;>
    simp [Socket.readyState, hc, hr, hw]

/-- Witness for the amended C2 at a concrete socket: fresh socket, both
flags clear, not connecting, `readyState = "closed"`. -/
theorem C2_readyState_cases_witness : (Socket.init false).readyState = "closed" := by
  have h := C2_readyState_cases (Socket.init false)
  exact (h.2 (by decide)).2.1 ⟨by decide, by decide⟩

/-- C4: the transport `error` listener emits no error event and changes no
connection flags or counters; it only refreshes the idle timer. -/
theorem C4_transport_error_silent (s : Socket) :
    s.onError = (s.refreshTimer, []) ∧
    (s.onError).1.connecting = s.connecting ∧
    (s.onError).1.readable = s.readable ∧
    (s.onError).1.writable = s.writable ∧
    (s.onError).1.destroyed = s.destroyed ∧
    (s.onError).1.ws = s.ws ∧
    (s.onError).1.bytesWritten = s.bytesWritten ∧
    errorCount (s.onError).2 = 0 := by
  simp [Socket.onError, Socket.refreshTimer, errorCount]

/-- C6: `end()` always clears `writable`, and the connection ends up
destroyed exactly when it already was, half-open is not permitted, or the
read side is already closed; with `allowHalfOpen = true` and the read side
open, `end()` does not destroy. -/
theorem C6_end_halfclose (s : Socket) :
    ((s.«end»).1).writable = false ∧
    ((s.«end»).1).destroyed = (s.destroyed || !s.allowHalfOpen || !s.readable) := by
  cases hd : s.destroyed <;> cases ha : s.allowHalfOpen <;> cases hr : s.readable <;>
    cases hw : s.ws <;> cases ht : s.timerArmed <;>
      simp [Socket.«end», Socket.destroy, Socket._destroy, Socket.refreshTimer,
        hd, ha, hr, hw, ht]

/-- C5: `_destroy` is idempotent — after one call the socket is destroyed,
and any later call returns the state unchanged with no effects (no
completion callback, no error re-raised); a first call on a live socket
sets `destroyed`, clears `connecting`/`readable`/`writable`, releases the
transport handle and clears the idle timer. -/
theorem C5_destroy_idempotent (s : Socket) (err err2 : Option String) (hcb hcb2 : Bool) :
    ((s._destroy err hcb).1)._destroy err2 hcb2 = ((s._destroy err hcb).1, []) ∧
    (s.destroyed = false →
      (s._destroy err hcb).1.destroyed = true ∧
      (s._destroy err hcb).1.connecting = false ∧
      (s._destroy err hcb).1.readable = false ∧
      (s._destroy err hcb).1.writable = false ∧
      (s._destroy err hcb).1.ws = false ∧
      (s._destroy err hcb).1.timerArmed = false) := by
  cases hd : s.destroyed <;> cases hw : s.ws <;> cases ht : s.timerArmed <;>
    simp [Socket._destroy, Socket.refreshTimer, hd, hw, ht]

/-- Witness for C5: destroying a fresh socket marks it destroyed. -/
theorem C5_destroy_idempotent_witness :
    (Socket.init false).destroyed = false ∧
    ((Socket.init false)._destroy (some "boom") true).1.destroyed = true := by
  have h := C5_destroy_idempotent (Socket.init false) (some "boom") none true false
  exact ⟨by decide, (h.2 (by decide)).1⟩

/-- C7: after a positive `setTimeout(d)` followed by `setTimeout(0)`, the
stored duration is cleared, the armed timer is cancelled, and no number of
idle firing opportunities produces a `timeout` event; any positive finite
duration replaces any previous deadline. -/
theorem C7_setTimeout_zero_disarms (s : Socket) (d : Int) (cb cb2 : Option Nat)
    (hd : 0 < d) :
    (((s.setTimeout (Duration.fin d) cb).setTimeout (Duration.fin 0) cb2).timeout = none) ∧
    (((s.setTimeout (Duration.fin d) cb).setTimeout (Duration.fin 0) cb2).timerArmed = false) ∧
    (∀ n, iterFire ((s.setTimeout (Duration.fin d) cb).setTimeout (Duration.fin 0) cb2) n =
      ((s.setTimeout (Duration.fin d) cb).setTimeout (Duration.fin 0) cb2, [])) ∧
    (∀ (s2 : Socket) (d2 : Int) (cb3 : Option Nat), 0 < d2 →
      (s2.setTimeout (Duration.fin d2) cb3).timeout = some d2) := by
  have hz : ∀ (s1 : Socket) (c : Option Nat),
      (s1.setTimeout (Duration.fin 0) c).timeout = none ∧
      (s1.setTimeout (Duration.fin 0) c).timerArmed = false := by
    intro s1 c
    cases c <;> simp [Socket.setTimeout]
  refine ⟨(hz _ cb2).1, (hz _ cb2).2, ?_, ?_⟩
  · exact iterFire_of_disarmed _ (hz _ cb2).2
  · intro s2 d2 cb3 hd2
    cases cb3 <;> simp [Socket.setTimeout, Socket.refreshTimer, hd2]

/-- Witness for C7: 5 then 0 on a fresh socket clears the deadline. -/
theorem C7_setTimeout_zero_disarms_witness :
    (0 : Int) < 5 ∧
    (((Socket.init false).setTimeout (Duration.fin 5) none).setTimeout
      (Duration.fin 0) none).timeout = none :=
  ⟨by decide, (C7_setTimeout_zero_disarms (Socket.init false) 5 none none (by decide)).1⟩

/-- C3: a transport close notification emits exactly one error event iff
the code is strictly between 1000 and 3000 and the clean flag is false or
absent (and none otherwise); when it does, the error precedes every
teardown effect; and if the socket was not already destroyed, end-of-data
is pushed and the socket is destroyed. -/
theorem C3_close_error_policy (s : Socket) (code : Int) (wasClean : Option Bool)
    (reason : String) :
    errorCount (s.onClose code wasClean reason).2 =
      (if 1000 < code ∧ code < 3000 ∧ (wasClean = none ∨ wasClean = some false)
       then 1 else 0) ∧
    ((1000 < code ∧ code < 3000 ∧ (wasClean = none ∨ wasClean = some false)) →
      (s.onClose code wasClean reason).2.head? =
        some (Eff.emitError ("[WebSocket error " ++ toString code ++ "] " ++ reason))) ∧
    (s.destroyed = false →
      (s.onClose code wasClean reason).1.destroyed = true ∧
      Eff.pushEOF ∈ (s.onClose code wasClean reason).2) := by
  by_cases hcond : 1000 < code ∧ code < 3000 ∧ (wasClean = none ∨ wasClean = some false) <;>
    cases hd : s.destroyed <;> cases hw : s.ws <;> cases ht : s.timerArmed <;>
      simp [Socket.onClose, Socket.destroy, Socket._destroy, Socket.refreshTimer,
        errorCount, isErrorEff, List.countP_cons, List.countP_append,
        hcond, hd, hw, ht] <;>
      split <;> rfl

/-- Witness for C3: close with code 1006, clean = false, on a fresh
socket: one error event, first in the effect list, socket destroyed. -/
theorem C3_close_error_policy_witness :
    errorCount ((Socket.init false).onClose 1006 (some false) "abnormal").2 = 1 ∧
    ((Socket.init false).onClose 1006 (some false) "abnormal").2.head? =
      some (Eff.emitError ("[WebSocket error " ++ toString (1006 : Int) ++ "] " ++ "abnormal")) ∧
    ((Socket.init false).onClose 1006 (some false) "abnormal").1.destroyed = true := by
  have h := C3_close_error_policy (Socket.init false) 1006 (some false) "abnormal"
  refine ⟨?_, h.2.1 (by decide), (h.2.2 (by decide)).1⟩
  rw [h.1]
  decide

/-- C8: a `connect()` call while a transport handle already exists leaves
the socket completely unchanged, constructs no transport, refreshes no
timer, and only schedules the supplied callback on the next tick; running
that tick invokes the callback once and changes nothing. -/
theorem C8_connect_noop (s : Socket) (opts : ConnectOptions) (hasCb : Bool)
    (hws : s.ws = true) (hpath : jsTruthy opts.path = false) :
    s.connect opts hasCb =
      (s, Except.ok (if hasCb then [Eff.schedule Tick.connectTick] else [])) ∧
    s.runTick Tick.connectTick = (s, [Eff.connCb]) :=
  ⟨by simp [Socket.connect, hpath, hws], rfl⟩

/-- Witness for C8: second connect on a socket with a transport handle. -/
theorem C8_connect_noop_witness :
    c8Sock.ws = true ∧
    c8Sock.connect {} true =
      (c8Sock, Except.ok (if true then [Eff.schedule Tick.connectTick] else [])) :=
  ⟨rfl, (C8_connect_noop c8Sock {} true rfl rfl).1⟩

/-- C9: `listen()` always throws synchronously, and `connect()` with a
filesystem-path target throws synchronously with an unsupported-operation
error; in both cases the socket state is returned unchanged. -/
theorem C9_unsupported_ops (s : Socket) (opts : ConnectOptions) (hasCb : Bool)
    (hpath : jsTruthy opts.path = true) :
    s.listen = (s, Except.error "Cannot listen in a browser") ∧
    s.connect opts hasCb = (s, Except.error "options.path not supported in the browser") :=
  ⟨rfl, by simp [Socket.connect, hpath]⟩

/-- Witness for C9 at a concrete path and socket. -/
theorem C9_unsupported_ops_witness :
    jsTruthy (some "/tmp/sock") = true ∧
    (Socket.init false).listen = (Socket.init false, Except.error "Cannot listen in a browser") ∧
    (Socket.init false).connect { path := some "/tmp/sock" } false =
      (Socket.init false, Except.error "options.path not supported in the browser") := by
  have h := C9_unsupported_ops (Socket.init false) { path := some "/tmp/sock" } false (by decide)
  exact ⟨by decide, h.1, h.2⟩

/-- C10: a `setTimeout` duration that is neither positive-finite nor
exactly zero (negative, NaN, or an infinity) leaves the socket — timer
configuration and listeners included — completely unchanged. -/
theorem C10_setTimeout_frame (s : Socket) (m : Duration) (cb : Option Nat)
    (h1 : m.isPosFinite = false) (h2 : m.isZero = false) :
    s.setTimeout m cb = s := by
  cases m with
  | fin n =>
    simp [Duration.isPosFinite] at h1
    simp [Duration.isZero] at h2
    simp [Socket.setTimeout, h1, h2]
  | nan => rfl
  | inf => rfl
  | negInf => rfl

/-- Witness for C10 at duration NaN. -/
theorem C10_setTimeout_frame_witness :
    Duration.nan.isPosFinite = false ∧ Duration.nan.isZero = false ∧
    (Socket.init false).setTimeout Duration.nan none = Socket.init false :=
  ⟨rfl, rfl, C10_setTimeout_frame (Socket.init false) Duration.nan none rfl rfl⟩

/-- C1: evaluation of the P6 scenario.  A write issued while connecting is
deferred (bytesWritten unchanged, no completion callback, the write is
pending); on open the transport's send receives the 3 UTF-8 bytes of
"abc" and a fresh encoder is built for the first-used encoding; but on the
next tick, although the completion callback fires, `bytesWritten` becomes
NaN rather than 3, because the scheduled task reads `.length` of the
ArrayBuffer produced by `encode(data).buffer`, which is `undefined`. -/
theorem C1_write_abc_bytesWritten_nan :
    (p6AfterConnect.connecting = true ∧ p6AfterConnect.bytesWritten = JSNum.fin 0) ∧
    (p6WriteRes.1.bytesWritten = JSNum.fin 0 ∧ p6WriteRes.2 = [] ∧
      p6WriteRes.1.pendingWrites = [⟨JSData.str "abc", "utf8", true⟩]) ∧
    (p6OpenRes.2 = [Eff.emitConnect, Eff.newEncoder "utf8",
        Eff.wsSend (JSData.abuf [97, 98, 99]),
        Eff.schedule (Tick.writeDone (JSData.abuf [97, 98, 99]) true)] ∧
      p6OpenRes.1.bytesWritten = JSNum.fin 0) ∧
    (p6TickRes.2 = [Eff.writeCb] ∧
      p6TickRes.1.bytesWritten = JSNum.nan ∧
      p6TickRes.1.bytesWritten ≠ JSNum.fin 3) := by
  decide
